import Mathlib

/-!
Verification of the `napi_tools` header (src/napi_tools.hpp) against its
natural-language specification.  The developments below are a shallow
embedding of the parts of the header the claims are about:

* the N-API value model and the argument validation layer
  (`util::checkArgs`, `util::napi_type_to_string`, `util::conversions`),
* the structured exception type (`napi_tools::exception`) and its
  construction from a host error (`exception::from_napi_error`),
* the cross-thread callback bridge (`callbacks::javascriptCallback`):
  its enqueue operation (`asyncCall`), its dispatch loop (`threadEntry`)
  and the per-request host-side callback with its catch clauses,
* the reference-counted callback handle
  (`callbacks::util::callback_template` and the `callback` front ends)
  with its invocation forms, guards and `stop`.
-/

namespace napi_tools

deriving instance DecidableEq for Except

/-- Model of a host-runtime (N-API) value.  Numbers are modelled as
integers: every value appearing in the claims is integral. -/
inductive NapiValue where
  | vUndefined : NapiValue
  | vNull : NapiValue
  | vBoolean (b : Bool) : NapiValue
  | vNumber (n : Int) : NapiValue
  | vString (s : String) : NapiValue
  | vArray (elems : List NapiValue) : NapiValue
  | vObject : NapiValue
  | vFunction : NapiValue
  | vBuffer : NapiValue
  | vPromise : NapiValue

/-- `Napi::Value::IsString`. -/
def NapiValue.IsString : NapiValue → Bool
  | .vString _ => true
  | _ => false

/-- `Napi::Value::IsNumber`. -/
def NapiValue.IsNumber : NapiValue → Bool
  | .vNumber _ => true
  | _ => false

/-- `Napi::Value::IsBoolean`. -/
def NapiValue.IsBoolean : NapiValue → Bool
  | .vBoolean _ => true
  | _ => false

/-- `Napi::Value::IsFunction`. -/
def NapiValue.IsFunction : NapiValue → Bool
  | .vFunction => true
  | _ => false

/-- `Napi::Value::IsObject`: true for plain objects and for the object-typed
values (arrays, functions, buffers, promises). -/
def NapiValue.IsObject : NapiValue → Bool
  | .vObject | .vArray _ | .vFunction | .vBuffer | .vPromise => true
  | _ => false

/-- `Napi::Value::IsArray`. -/
def NapiValue.IsArray : NapiValue → Bool
  | .vArray _ => true
  | _ => false

/-- `Napi::Value::IsUndefined`. -/
def NapiValue.IsUndefined : NapiValue → Bool
  | .vUndefined => true
  | _ => false

/-- `Napi::Value::IsNull`. -/
def NapiValue.IsNull : NapiValue → Bool
  | .vNull => true
  | _ => false

/-- `Napi::Value::IsBuffer`. -/
def NapiValue.IsBuffer : NapiValue → Bool
  | .vBuffer => true
  | _ => false

/-- `Napi::Value::IsPromise`. -/
def NapiValue.IsPromise : NapiValue → Bool
  | .vPromise => true
  | _ => false

-- The `napi_tools::napi_type` flag bits.
namespace napi_type

def string : Nat := 0x1

def number : Nat := 0x2

def function : Nat := 0x4

def object : Nat := 0x8

def boolean : Nat := 0x10

def array : Nat := 0x20

def undefined : Nat := 0x40

def null : Nat := 0x80

def buffer : Nat := 0x100

def promise : Nat := 0x200

end napi_type

/-- The `print_to_stream` lambda inside `util::napi_type_to_string`:
prepend `" or "` when the stream already holds text. -/
def print_to_stream (acc : String) (c : String) : String :=
  if acc ≠ "" then acc ++ " or " ++ c else acc ++ c

/-- `util::napi_type_to_string`: render a `napi_type` bit set as text.
The `string` bit is printed with a plain `ss << "string"`, all other bits
through `print_to_stream`, exactly as in the source. -/
def napi_type_to_string (t : Nat) : String :=
  let ss := ""
  let ss := if t &&& napi_type.string ≠ 0 then ss ++ "string" else ss
  let ss := if t &&& napi_type.number ≠ 0 then print_to_stream ss "number" else ss
  let ss := if t &&& napi_type.function ≠ 0 then print_to_stream ss "function" else ss
  let ss := if t &&& napi_type.object ≠ 0 then print_to_stream ss "object" else ss
  let ss := if t &&& napi_type.boolean ≠ 0 then print_to_stream ss "boolean" else ss
  let ss := if t &&& napi_type.array ≠ 0 then print_to_stream ss "array" else ss
  let ss := if t &&& napi_type.undefined ≠ 0 then print_to_stream ss "undefined" else ss
  let ss := if t &&& napi_type.null ≠ 0 then print_to_stream ss "null" else ss
  let ss := if t &&& napi_type.buffer ≠ 0 then print_to_stream ss "buffer" else ss
  let ss := if t &&& napi_type.promise ≠ 0 then print_to_stream ss "promise" else ss
  ss

/-- The `check_arg` lambda inside `util::checkArgs`: a value satisfies a
flag set when at least one requested type predicate holds. -/
def check_arg (val : NapiValue) (t : Nat) : Bool :=
  (t &&& napi_type.string ≠ 0 && val.IsString) ||
  (t &&& napi_type.number ≠ 0 && val.IsNumber) ||
  (t &&& napi_type.function ≠ 0 && val.IsFunction) ||
  (t &&& napi_type.object ≠ 0 && val.IsObject) ||
  (t &&& napi_type.boolean ≠ 0 && val.IsBoolean) ||
  (t &&& napi_type.array ≠ 0 && val.IsArray) ||
  (t &&& napi_type.undefined ≠ 0 && val.IsUndefined) ||
  (t &&& napi_type.null ≠ 0 && val.IsNull) ||
  (t &&& napi_type.buffer ≠ 0 && val.IsBuffer) ||
  (t &&& napi_type.promise ≠ 0 && val.IsPromise)

/-- The `for (size_t i = 0; ...)` loop of `util::checkArgs`, walking the
argument/expected-type pairs with the running index `i`. -/
def checkArgsLoop (funcName : String) : List (NapiValue × Nat) → Nat → Except String Unit
  | [], _ => .ok ()
  | (v, t) :: rest, i =>
      if check_arg v t then checkArgsLoop funcName rest (i + 1)
      else .error ("Argument type mismatch: " ++ funcName ++ " requires type " ++
                   napi_type_to_string t ++ " at position " ++ toString (i + 1))

/-- `util::checkArgs`: validate a call's arguments against the expected
`napi_type` flag sets.  `info` is the argument list of the
`Napi::CallbackInfo`, `types` the expected types.  Throwing
`Napi::TypeError` is modelled by returning `.error` with the error's
message. -/
def checkArgs (info : List NapiValue) (funcName : String) (types : List Nat) :
    Except String Unit :=
  if info.length < types.length then
    .error (funcName ++ " requires " ++ toString types.length ++ " arguments")
  else
    checkArgsLoop funcName (info.zip types) 0

/-- `util::conversions::toCpp<T>::convert` instantiated at an integral `T`
(the `is_any_of<T, int8_t, ..., uint64_t>` branch): require a number,
otherwise throw `std::runtime_error("The given type is not a number")`. -/
def toCppInt : NapiValue → Except String Int
  | .vNumber n => .ok n
  | _ => .error "The given type is not a number"

/-- `util::conversions::toCpp<T>::convert` instantiated at
`T = std::string` (the `is_any_of<T, std::string, const char *>` branch). -/
def toCppString : NapiValue → Except String String
  | .vString s => .ok s
  | _ => .error "The given type is not a string"

/-- `util::conversions::toCpp<T>::convert` instantiated at `T = bool`. -/
def toCppBool : NapiValue → Except String Bool
  | .vBoolean b => .ok b
  | _ => .error "The given type is not a boolean"

/-- `util::conversions::toCpp<std::vector<T>>::convert` at
`T = std::string`.  The source's loop body reads
`vec.push_back(toCpp<T>::convert(arr.Get(i)));`, i.e. it drops the
`Napi::Env` argument that every `toCpp<T>::convert` requires, so the
instantiation is ill-formed C++ and cannot compile.  This definition
threads the element conversion through as the surrounding code plainly
intends (compare line 367 of the source, which calls
`toCpp<T>::convert(info.Env(), info[0])` with both arguments). -/
def toCppStringVec : NapiValue → Except String (List String)
  | .vArray elems => elems.mapM toCppString
  | _ => .error "The value supplied must be an array"

/-- `util::conversions::cppValToValue` at an integral type:
`has_toNapiValue` fails, `napi_can_convert` holds via `is_integral`, so
`Napi::Value::From(env, cppVal)` produces a number. -/
def cppValToValueInt (n : Int) : NapiValue :=
  NapiValue.vNumber n

/-- `util::conversions::cppValToValue` at `std::string`: the
`napi_can_convert` branch, `Napi::Value::From` produces a string. -/
def cppValToValueString (s : String) : NapiValue :=
  NapiValue.vString s

/-- `util::conversions::cppValToValue` at `bool`: the `napi_can_convert`
branch (`is_integral<bool>` holds), `Napi::Value::From` produces a
boolean. -/
def cppValToValueBool (b : Bool) : NapiValue :=
  NapiValue.vBoolean b

/-- The `std::vector` overload of `util::conversions::cppValToValue` at
`T = std::string`: build a `Napi::Array` element-wise, in index order. -/
def cppValToValueStringVec (vec : List String) : NapiValue :=
  NapiValue.vArray (vec.map cppValToValueString)

/-- The dispatch structure of the generic `util::conversions::cppValToValue`:
if `T` provides `toNapiValue` (compile-time capability check
`classes::has_toNapiValue`), use it; otherwise, if `napi_can_convert<T>`
holds, use `Napi::Value::From`; otherwise return `env.Undefined()`.
`toNapiFn` is `some` exactly when the capability check succeeds, and
`fromVal` is the result `Napi::Value::From(env, v)` would produce on the
built-in path. -/
def cppValToValue {α : Type} (toNapiFn : Option (α → NapiValue))
    (canConvert : Bool) (fromVal : α → NapiValue) (v : α) : NapiValue :=
  match toNapiFn with
  | some f => f v
  | none => if canConvert then fromVal v else NapiValue.vUndefined

/-- Character-level worker for `util::split_string`: accumulate the
current token until the delimiter character, then start a new token. -/
def splitOnCharAux (c : Char) : List Char → List Char → List (List Char)
  | [], acc => [acc.reverse]
  | x :: xs, acc =>
      if x = c then acc.reverse :: splitOnCharAux c xs []
      else splitOnCharAux c xs (x :: acc)

/-- `util::split_string`: repeatedly cut the text before the next
delimiter occurrence, then push the remainder.  The source takes a string
delimiter but is only ever applied to the one-character delimiter
`"\n"`, which this model takes as a `Char`. -/
def split_string (str : String) (delimiter : Char) : List String :=
  (splitOnCharAux delimiter str.toList []).map String.mk

/-- `file.substr(file.find_last_of(slash) + 1)` as used by
`exception::add_to_stack` (non-Windows `slash`, i.e. `'/'`): the text
after the last slash, or the whole string when there is none. -/
def fileBasename (file : String) : String :=
  (split_string file '/').getLastD file

/-- `napi_tools::exception`: a message plus an ordered stack trace. -/
structure exception where
  message : String
  stack : List String
deriving DecidableEq

/-- `exception::add_to_stack`: prepend a frame
`"\tat METHOD (FILE:LINE)"`, with `FILE` reduced to its basename. -/
def exception.add_to_stack (e : exception) (method : String) (file : String)
    (line : Nat) : exception :=
  { e with stack :=
      ("\tat " ++ method ++ " (" ++ fileBasename file ++ ":" ++ toString line ++ ")")
        :: e.stack }

/-- A host-side `Napi::Error`: its message (`e.Message()`, also what
`what()` returns) and the `stack` property of the underlying error
object, `none` when the object has no such property. -/
structure NapiError where
  message : String
  stackField : Option NapiValue

/-- `exception::from_napi_error`: when the host error carries a string
`stack` property that splits into more than one line, drop the first
line (`Error: [TEXT]`), keep the rest as the stack, and prepend a frame
for `from_napi_error` itself (`__FUNCTION__`, `__FILE__`, `__LINE__` of
the `add_to_stack` call at source line 494); otherwise build an
exception from the message alone, with an empty stack. -/
def exception.from_napi_error (e : NapiError) : exception :=
  match e.stackField with
  | some (NapiValue.vString st) =>
      let stack := split_string st '\n'
      if stack.length > 1 then
        (exception.mk e.message stack.tail).add_to_stack
          "from_napi_error" "napi_tools.hpp" 494
      else { message := e.message, stack := [] }
  | _ => { message := e.message, stack := [] }

/-- An exception travelling through the dispatch callback's catch
clauses: a host-side `Napi::Error` (which is also a `std::exception`
whose `what()` is its message), a plain `std::exception` carrying its
`what()` text, or anything else (the `catch (...)` case). -/
inductive CxxExc where
  | napiErr (e : NapiError)
  | stdExc (msg : String)
  | unknownExc

/-- Observable effects of one run of the dispatch callback inside
`javascriptCallback<R(A...)>::threadEntry`: the value handed to the
success continuation `data->fun` (if it was invoked), the structured
exception handed to the failure continuation `data->err` (if it was
invoked), and the lines written to `std::cerr`. -/
structure DispatchRecord (R : Type) where
  delivered_ok : Option R
  delivered_err : Option exception
  logged : List String
deriving DecidableEq

/-- The structured exception the dispatch callback delivers for a host
error: `exception::from_napi_error` plus the frame added by
`ex.add_to_stack("napi_tools::callbacks::javascriptCallback::threadEntry::callback",
__FILE__, __LINE__)` at source line 1112. -/
def threadEntryEx (e : NapiError) : exception :=
  (exception.from_napi_error e).add_to_stack
    "napi_tools::callbacks::javascriptCallback::threadEntry::callback"
    "napi_tools.hpp" 1112

/-- The catch clauses of the dispatch callback.  `okDelivered` records a
value already handed to the success continuation before the exception
was raised (the try block runs `data->fun(ret)` last, so an exception
escaping the success continuation reaches these same clauses).  A
`Napi::Error` is converted via `from_napi_error` and delivered to
`data->err`; a `std::exception` is wrapped as `exception(e.what())` and
delivered to `data->err`; anything else is only logged.  An exception
escaping `data->err` itself is caught and logged (`Napi::Error` is a
`std::exception`, so it hits the `what()`-logging clause). -/
def dispatchCatch {R : Type} (err : exception → Except CxxExc Unit)
    (okDelivered : Option R) : CxxExc → DispatchRecord R
  | .napiErr ne =>
      let ex := threadEntryEx ne
      match err ex with
      | .ok _ =>
          { delivered_ok := okDelivered, delivered_err := some ex, logged := [] }
      | .error (.stdExc m) =>
          { delivered_ok := okDelivered, delivered_err := some ex,
            logged := ["napi_tools.hpp:1115 Exception thrown: " ++ m] }
      | .error (.napiErr ne2) =>
          { delivered_ok := okDelivered, delivered_err := some ex,
            logged := ["napi_tools.hpp:1115 Exception thrown: " ++ ne2.message] }
      | .error .unknownExc =>
          { delivered_ok := okDelivered, delivered_err := some ex,
            logged := ["napi_tools.hpp:1117 Unknown exception thrown"] }
  | .stdExc m =>
      let ex : exception := { message := m, stack := [] }
      match err ex with
      | .ok _ =>
          { delivered_ok := okDelivered, delivered_err := some ex, logged := [] }
      | .error (.stdExc m2) =>
          { delivered_ok := okDelivered, delivered_err := some ex,
            logged := ["napi_tools.hpp:1123 Exception thrown: " ++ m2] }
      | .error (.napiErr ne2) =>
          { delivered_ok := okDelivered, delivered_err := some ex,
            logged := ["napi_tools.hpp:1123 Exception thrown: " ++ ne2.message] }
      | .error .unknownExc =>
          { delivered_ok := okDelivered, delivered_err := some ex,
            logged := ["napi_tools.hpp:1125 Unknown exception thrown"] }
  | .unknownExc =>
      { delivered_ok := okDelivered, delivered_err := none,
        logged := ["napi_tools.hpp:1128 Unknown exception thrown"] }

/-- The dispatch callback run by `ts_fn.BlockingCall` on the host thread:
`try { val = jsCallback.Call(data->to_vector(env)); ret =
convertToCpp<U>(env, val); data->fun(ret); }` followed by the catch
clauses of the source.  `hostCall` is the combined outcome of invoking
the host callable and converting its return value; `fun_` and `err` are
the call request's continuations, which may themselves throw. -/
def threadEntryCallback {R : Type} (hostCall : Except CxxExc R)
    (fun_ : R → Except CxxExc Unit) (err : exception → Except CxxExc Unit) :
    DispatchRecord R :=
  match hostCall with
  | .ok ret =>
      match fun_ ret with
      | .ok _ => { delivered_ok := some ret, delivered_err := none, logged := [] }
      | .error e => dispatchCatch err (some ret) e
  | .error e => dispatchCatch err none e

/-- One interaction with a `javascriptCallback` bridge.  `enqueue` and
`dispatch` hold the bridge mutex; `stop` writes the run flag without
taking the lock, so it may occur between any two lock-holding events. -/
inductive BridgeEvent where
  | enqueue (r : Nat)
  | stop
  | dispatch
deriving DecidableEq

/-- State of one `javascriptCallback` bridge: the `run` flag, the pending
`queue`, the requests delivered through `ts_fn.BlockingCall` in delivery
order, and whether the dispatch thread has observed `run == false` and
left its loop (after which it releases `ts_fn` and never dispatches
again). -/
structure BridgeState where
  run : Bool
  queue : List Nat
  delivered : List Nat
  exited : Bool
deriving DecidableEq

/-- A freshly constructed bridge: `run = true`, empty queue, dispatch
thread running. -/
def initBridge : BridgeState :=
  { run := true, queue := [], delivered := [], exited := false }

/-- Bridge transition on one event.

* `enqueue r` — `asyncCall`: push the request under the lock (the source
  pushes unconditionally; the run flag is not consulted).
* `stop` — `javascriptCallback::stop`: set `run` to `false`.
* `dispatch` — one lock acquisition of the `threadEntry` loop: if the
  thread has already exited, nothing can happen; if it sees
  `run == true` it drains the entire queue through `BlockingCall` in
  FIFO order and clears it; if it sees `run == false` it leaves the loop
  without draining. -/
def step (s : BridgeState) : BridgeEvent → BridgeState
  | .enqueue r => { s with queue := s.queue ++ [r] }
  | .stop => { s with run := false }
  | .dispatch =>
      if s.exited then s
      else if s.run then { s with delivered := s.delivered ++ s.queue, queue := [] }
      else { s with exited := true }

/-- Run a sequence of bridge events from a state. -/
def steps (s : BridgeState) : List BridgeEvent → BridgeState
  | [] => s
  | e :: t => steps (step s e) t

/-- Run a sequence of bridge events on a fresh bridge. -/
def runTrace (t : List BridgeEvent) : BridgeState :=
  steps initBridge t

/-- The requests of a trace, in enqueue order. -/
def enqueuedIds (t : List BridgeEvent) : List Nat :=
  t.filterMap fun e =>
    match e with
    | .enqueue r => some r
    | _ => none

/-- The shared `wrapper` allocated when a `callback_template` is bound:
its `stopped` flag, the bridge's `run` flag, and a count of how many
times `javascriptCallback::stop()` has been signalled (the source
signals by calling `ptr->fn->stop()`; the count makes double-signalling
observable). -/
structure WrapperState where
  stopped : Bool
  bridgeRun : Bool
  stopSignals : Nat
deriving DecidableEq

/-- A callback handle's `ptr`: `none` models a null pointer (default- or
`nullptr`-constructed handle); `some w` a handle bound to a shared
wrapper.  All copies of a handle share the wrapper, so one
`WrapperState` stands for every copy. -/
abbrev HandleState := Option WrapperState

/-- `callback_template::stop`: if bound and not stopped, signal the
bridge (`ptr->fn->stop()`, once) and mark the shared wrapper stopped;
otherwise do nothing. -/
def handle_stop : HandleState → HandleState
  | none => none
  | some w =>
      if !w.stopped then
        some { stopped := true, bridgeRun := false, stopSignals := w.stopSignals + 1 }
      else some w

/-- `callback<R(Args...)>::call(Args..., callback, on_error)`, the
fire-and-continue invocation form (the `void(Args...)` specialization at
source lines 1420-1431 has the identical guard structure).  `cb` and
`onErr` are `none` when the corresponding `std::function` is empty.  On
success `asyncCall` appends the request to the bridge queue; a thrown
`std::runtime_error` is modelled as `.error` carrying its message, in
which case no request is enqueued. -/
def callback_call (h : HandleState) (queue : List Nat) (req : Nat)
    (cb : Option (Int → Except CxxExc Unit))
    (onErr : Option (exception → Except CxxExc Unit)) :
    Except String (List Nat) :=
  if cb.isNone || onErr.isNone then
    .error "The callback functions are not initialized"
  else
    match h with
    | some w =>
        if !w.stopped then .ok (queue ++ [req])
        else .error "Callback was never initialized"
    | none => .error "Callback was never initialized"

/-- `callback<R(Args...)>::call(Args...)`, the future-returning form:
wraps the fire-and-continue form with freshly created, hence non-null,
promise-resolving continuations. -/
def callback_call_future (h : HandleState) (queue : List Nat) (req : Nat) :
    Except String (List Nat) :=
  callback_call h queue req (some fun _ => .ok ()) (some fun _ => .ok ())

/-- `callback<R(Args...)>::call(Args..., std::promise<R>&)`, the
external-slot form: like the future-returning form, but the caller
supplies the result slot; the installed continuations are again
non-null. -/
def callback_call_promise (h : HandleState) (queue : List Nat) (req : Nat) :
    Except String (List Nat) :=
  callback_call h queue req (some fun _ => .ok ()) (some fun _ => .ok ())

/-- `callback<R(Args...)>::callSync` at `R = int`, invoked from a thread
other than the host's execution thread: create a `std::promise<R>`,
install the slot-resolving continuations via
`call(Args..., std::promise<R>&)`, let the dispatch thread deliver the
request through the dispatch callback, then block on `future.get()`.
The outer `Except String` is a synchronous throw at the call site (null
or stopped handle).  The inner value is what `future.get()` yields:
`some (.ok v)` when the success continuation resolved the slot with `v`,
`some (.error ex)` when the failure continuation rejected it with the
structured exception `ex`, and `none` when neither continuation ran (the
slot is never resolved and the wait never returns). -/
def callSyncModel (h : HandleState) (host : Int → Except CxxExc Int) (x : Int) :
    Except String (Option (Except exception Int)) :=
  match h with
  | some w =>
      if !w.stopped then
        let record := threadEntryCallback (host x)
          (fun _ => Except.ok ()) (fun _ => Except.ok ())
        .ok (match record.delivered_ok with
             | some v => some (.ok v)
             | none =>
               match record.delivered_err with
               | some ex => some (.error ex)
               | none => none)
      else .error "Callback was never initialized"
  | none => .error "Callback was never initialized"

/-- Substring test over the character list, used only to state what a
fixed error message does not contain. -/
def hasSubstrAux (pat : List Char) : List Char → Bool
  | [] => pat.isEmpty
  | c :: rest => pat.isPrefixOf (c :: rest) || hasSubstrAux pat rest

/-- Whether `pat` occurs as a contiguous substring of `s`. -/
def hasSubstr (s pat : String) : Bool :=
  hasSubstrAux pat.toList s.toList

/-! ### Helper lemmas about the bridge transition system -/

lemma steps_append (s : BridgeState) (t1 t2 : List BridgeEvent) :
    steps s (t1 ++ t2) = steps (steps s t1) t2 := by
  induction t1 generalizing s with
  | nil => rfl
  | cons e t ih => simp [steps, ih]

lemma enqueuedIds_cons (e : BridgeEvent) (t : List BridgeEvent) :
    enqueuedIds (e :: t) =
      (match e with | .enqueue r => [r] | _ => []) ++ enqueuedIds t := by
  cases e <;> simp [enqueuedIds]

lemma step_delivered_queue (s : BridgeState) (e : BridgeEvent) :
    (step s e).delivered ++ (step s e).queue =
      s.delivered ++ s.queue ++
        (match e with | BridgeEvent.enqueue r => [r] | _ => []) := by
  cases e with
  | enqueue r => simp [step]
  | stop => simp [step]
  | dispatch =>
      by_cases hex : s.exited
      · simp [step, hex]
      · by_cases hrun : s.run
        · simp [step, hex, hrun]
        · simp [step, hex, hrun]

lemma steps_delivered_queue (t : List BridgeEvent) (s : BridgeState) :
    (steps s t).delivered ++ (steps s t).queue =
      s.delivered ++ s.queue ++ enqueuedIds t := by
  induction t generalizing s with
  | nil => simp [steps, enqueuedIds]
  | cons e t ih =>
      rw [steps, ih (step s e), step_delivered_queue s e, enqueuedIds_cons]
      simp [List.append_assoc]

lemma step_delivered_mono (s : BridgeState) (e : BridgeEvent) (r : Nat)
    (h : r ∈ s.delivered) : r ∈ (step s e).delivered := by
  cases e with
  | enqueue x => simpa [step] using h
  | stop => simpa [step] using h
  | dispatch =>
      by_cases hex : s.exited
      · simpa [step, hex] using h
      · by_cases hrun : s.run
        · simp [step, hex, hrun]
          exact Or.inl h
        · simpa [step, hex, hrun] using h

lemma steps_delivered_mono (t : List BridgeEvent) (s : BridgeState) (r : Nat)
    (h : r ∈ s.delivered) : r ∈ (steps s t).delivered := by
  induction t generalizing s with
  | nil => simpa [steps] using h
  | cons e t ih => exact ih (step s e) (step_delivered_mono s e r h)

/-! ### C1 and C2 -/

/-- C1 (amended): in the mutex-serialized model of the bridge, for every
event trace the delivered requests followed by the still-pending queue
are exactly the requests in enqueue order.  Hence delivery is FIFO (the
delivered list is a prefix of the enqueue order, so within and across
drain cycles requests are delivered in enqueue order), no request is
ever delivered twice (each delivered occurrence consumes one enqueued
occurrence, made explicit by the count inequality), and a request is
delivered at most once — but not necessarily exactly once: a request
enqueued before the dispatch thread observes `stop()` may remain in the
queue forever (see the counterexample). -/
theorem asyncCall_fifo_prefix (t : List BridgeEvent) :
    (runTrace t).delivered ++ (runTrace t).queue = enqueuedIds t ∧
    ∀ r : Nat, ((runTrace t).delivered).count r ≤ (enqueuedIds t).count r := by
  have h := steps_delivered_queue t initBridge
  simp only [initBridge] at h
  constructor
  · simpa [runTrace, initBridge] using h
  · intro r
    have h2 : (runTrace t).delivered ++ (runTrace t).queue = enqueuedIds t := by
      simpa [runTrace, initBridge] using h
    rw [← h2, List.count_append]
    omega

/-- C1 as stated is false: in the trace `enqueue 1, enqueue 2, stop,
dispatch` both requests are enqueued before the dispatch thread observes
`stop()` (the observation is the `dispatch` event, after which the
thread has exited), yet the delivered list is empty — neither request is
delivered exactly once.  After the exit the bridge is inert, so no later
event can ever deliver them: a further `dispatch` leaves the state
unchanged. -/
theorem asyncCall_exactly_once_counterexample :
    runTrace [BridgeEvent.enqueue 1, BridgeEvent.enqueue 2,
              BridgeEvent.stop, BridgeEvent.dispatch] =
      { run := false, queue := [1, 2], delivered := [], exited := true } ∧
    step (runTrace [BridgeEvent.enqueue 1, BridgeEvent.enqueue 2,
                    BridgeEvent.stop, BridgeEvent.dispatch]) BridgeEvent.dispatch =
      runTrace [BridgeEvent.enqueue 1, BridgeEvent.enqueue 2,
                BridgeEvent.stop, BridgeEvent.dispatch] := by
  constructor <;> decide

/-- C2 (amended): a call request that is in the pending queue at a lock
acquisition at which the dispatch thread still observes the run flag
`true` is drained and delivered during that same acquisition — the drain
and the run-flag check happen under the same mutex acquisition — and it
stays delivered under any further events.  (A request enqueued before the
thread observes `stop()` but after the last such true-run acquisition has
no such guarantee; see the counterexample.) -/
theorem threadEntry_true_run_drains (t1 t2 : List BridgeEvent)
    (h1 : (runTrace t1).run = true) (h2 : (runTrace t1).exited = false) :
    ∀ r ∈ (runTrace t1).queue,
      r ∈ (runTrace (t1 ++ BridgeEvent.dispatch :: t2)).delivered := by
  intro r hr
  have hsplit : runTrace (t1 ++ BridgeEvent.dispatch :: t2) =
      steps (step (runTrace t1) BridgeEvent.dispatch) t2 := by
    rw [runTrace, steps_append]
    rfl
  rw [hsplit]
  apply steps_delivered_mono
  simp [step, h1, h2]
  exact Or.inr hr

/-- Witness for `threadEntry_true_run_drains`: request `5`, enqueued and
still pending while the bridge runs, is delivered by the next dispatch
acquisition. -/
theorem threadEntry_true_run_drains_witness :
    5 ∈ (runTrace [BridgeEvent.enqueue 5, BridgeEvent.dispatch]).delivered :=
  threadEntry_true_run_drains [BridgeEvent.enqueue 5] [] rfl rfl 5 (by decide)

/-- C2 as stated is false: request `7` is enqueued before the dispatch
thread observes `stop()` (the `dispatch` event is the observation), yet
the thread exits without draining — the request is silently dropped, not
"drained and executed before the bridge transitions to Stopping". -/
theorem threadEntry_stop_drop_counterexample :
    runTrace [BridgeEvent.enqueue 7, BridgeEvent.stop, BridgeEvent.dispatch] =
      { run := false, queue := [7], delivered := [], exited := true } := by
  decide

/-! ### C3, C9, C10, C5 -/

/-- C3: on a handle whose `ptr` is null or whose shared wrapper is marked
stopped, every invocation form — fire-and-continue (with non-null
continuations), future-returning, external-slot and the synchronous
convenience form — throws `std::runtime_error("Callback was never
initialized")` synchronously at the call site, and no call request is
enqueued (the `.error` results carry no updated queue and `asyncCall` is
never reached). -/
theorem dead_handle_call_throws (h : HandleState) (queue : List Nat) (req : Nat)
    (hdead : h = none ∨ ∃ w : WrapperState, h = some w ∧ w.stopped = true) :
    (∀ (cb : Option (Int → Except CxxExc Unit))
       (onErr : Option (exception → Except CxxExc Unit)),
        cb.isSome → onErr.isSome →
        callback_call h queue req cb onErr =
          .error "Callback was never initialized") ∧
    callback_call_future h queue req = .error "Callback was never initialized" ∧
    callback_call_promise h queue req = .error "Callback was never initialized" ∧
    (∀ (host : Int → Except CxxExc Int) (x : Int),
        callSyncModel h host x = .error "Callback was never initialized") := by
  have hmain : ∀ (cb : Option (Int → Except CxxExc Unit))
      (onErr : Option (exception → Except CxxExc Unit)),
      cb.isSome → onErr.isSome →
      callback_call h queue req cb onErr =
        .error "Callback was never initialized" := by
    intro cb onErr hcb honErr
    obtain ⟨c, rfl⟩ := Option.isSome_iff_exists.mp hcb
    obtain ⟨o, rfl⟩ := Option.isSome_iff_exists.mp honErr
    rcases hdead with rfl | ⟨w, rfl, hw⟩
    · simp [callback_call]
    · simp [callback_call, hw]
  refine ⟨hmain, ?_, ?_, ?_⟩
  · exact hmain _ _ rfl rfl
  · exact hmain _ _ rfl rfl
  · intro host x
    rcases hdead with rfl | ⟨w, rfl, hw⟩
    · simp [callSyncModel]
    · simp [callSyncModel, hw]

/-- Witness for `dead_handle_call_throws`: a never-bound handle and a
stopped handle both fail with the uninitialized-callback error on the
fire-and-continue, future-returning and synchronous forms. -/
theorem dead_handle_call_throws_witness :
    callback_call none [] 0 (some fun _ => Except.ok ())
        (some fun _ => Except.ok ()) = .error "Callback was never initialized" ∧
    callback_call_future (some ⟨true, false, 1⟩) [3] 4 =
      .error "Callback was never initialized" ∧
    callSyncModel none (fun x => Except.ok x) 0 =
      .error "Callback was never initialized" :=
  ⟨(dead_handle_call_throws none [] 0 (Or.inl rfl)).1 _ _ rfl rfl,
   (dead_handle_call_throws (some ⟨true, false, 1⟩) [3] 4
      (Or.inr ⟨_, rfl, rfl⟩)).2.1,
   (dead_handle_call_throws none [] 0 (Or.inl rfl)).2.2.2 _ 0⟩

/-- C10: the fire-and-continue form first checks the two continuation
`std::function`s; if either is empty it throws
`std::runtime_error("The callback functions are not initialized")`
regardless of the handle's bound/stopped state — the guard precedes the
`ptr`/`stopped` examination — and nothing is enqueued. -/
theorem null_continuations_throw (h : HandleState) (queue : List Nat) (req : Nat)
    (cb : Option (Int → Except CxxExc Unit))
    (onErr : Option (exception → Except CxxExc Unit))
    (hnull : cb = none ∨ onErr = none) :
    callback_call h queue req cb onErr =
      .error "The callback functions are not initialized" := by
  rcases hnull with rfl | rfl <;> simp [callback_call]

/-- Witness for `null_continuations_throw`: even on a live handle, a null
success continuation yields the continuations error, and so does a null
failure continuation. -/
theorem null_continuations_throw_witness :
    callback_call (some ⟨false, true, 0⟩) [] 1 none (some fun _ => Except.ok ()) =
      .error "The callback functions are not initialized" ∧
    callback_call (some ⟨false, true, 0⟩) [] 1 (some fun _ => Except.ok ()) none =
      .error "The callback functions are not initialized" :=
  ⟨null_continuations_throw _ _ _ _ _ (Or.inl rfl),
   null_continuations_throw _ _ _ _ _ (Or.inr rfl)⟩

/-- C9: `callback_template::stop` is idempotent on the shared wrapper
(which all copies of a handle share): stopping a bound, not-yet-stopped
handle signals the bridge exactly once (`stopSignals` rises by one, the
bridge run flag drops) and marks the wrapper stopped; stopping again —
from this handle or any copy — is a no-op and never signals a second
time. -/
theorem stop_idempotent (h : HandleState) :
    handle_stop (handle_stop h) = handle_stop h ∧
    (∀ w : WrapperState, h = some w → w.stopped = false →
        handle_stop h =
          some { stopped := true, bridgeRun := false,
                 stopSignals := w.stopSignals + 1 }) ∧
    (∀ w : WrapperState, h = some w → w.stopped = true → handle_stop h = h) := by
  refine ⟨?_, ?_, ?_⟩
  · match h with
    | none => rfl
    | some w =>
        by_cases hw : w.stopped
        · simp [handle_stop, hw]
        · simp [handle_stop, hw]
  · rintro w rfl hw
    simp [handle_stop, hw]
  · rintro w rfl hw
    simp [handle_stop, hw]

/-- Witness for `stop_idempotent`: one live wrapper; the first stop
signals once, the second changes nothing. -/
theorem stop_idempotent_witness :
    handle_stop (handle_stop (some ⟨false, true, 0⟩)) =
      handle_stop (some ⟨false, true, 0⟩) ∧
    handle_stop (some ⟨false, true, 0⟩) = some ⟨true, false, 1⟩ :=
  ⟨(stop_idempotent (some ⟨false, true, 0⟩)).1,
   (stop_idempotent (some ⟨false, true, 0⟩)).2.1 _ rfl rfl⟩

/-- C5: `callSync` on a live handle, called off the host thread: when the
host callable (composed with return-value conversion) returns a value,
the blocking wait returns that value — the success continuation resolves
the result slot being waited on; when the host callable throws a host
error, the blocking wait re-throws the structured exception built by the
dispatch callback — the failure continuation rejects the same result
slot. -/
theorem callSync_blocking_result (w : WrapperState) (hw : w.stopped = false)
    (host : Int → Except CxxExc Int) :
    (∀ x y : Int, host x = .ok y →
        callSyncModel (some w) host x = .ok (some (.ok y))) ∧
    (∀ (x : Int) (e : NapiError), host x = .error (.napiErr e) →
        callSyncModel (some w) host x = .ok (some (.error (threadEntryEx e)))) := by
  constructor
  · intro x y hxy
    simp [callSyncModel, hw, threadEntryCallback, hxy]
  · intro x e hxe
    simp [callSyncModel, hw, threadEntryCallback, hxe, dispatchCatch]

/-- Witness for `callSync_blocking_result`: a doubling host callable
yields `callSync(21) = 42`; a throwing host callable re-throws the
structured exception. -/
theorem callSync_blocking_result_witness :
    callSyncModel (some ⟨false, true, 0⟩) (fun x => Except.ok (2 * x)) 21 =
      .ok (some (.ok 42)) ∧
    callSyncModel (some ⟨false, true, 0⟩)
        (fun _ => Except.error (CxxExc.napiErr ⟨"oops", none⟩)) 5 =
      .ok (some (.error (threadEntryEx ⟨"oops", none⟩))) :=
  ⟨(callSync_blocking_result ⟨false, true, 0⟩ rfl _).1 21 42
      (congrArg Except.ok (by norm_num)),
   (callSync_blocking_result ⟨false, true, 0⟩ rfl _).2 5 ⟨"oops", none⟩ rfl⟩

/-! ### C4 -/

lemma from_napi_error_message (e : NapiError) :
    (exception.from_napi_error e).message = e.message := by
  rcases e with ⟨msg, sf⟩
  match sf with
  | none => rfl
  | some v =>
      cases v <;> simp [exception.from_napi_error, exception.add_to_stack]
      split <;> rfl

lemma threadEntryEx_message (e : NapiError) :
    (threadEntryEx e).message = e.message := by
  simp [threadEntryEx, exception.add_to_stack, from_napi_error_message]

lemma threadEntryEx_stack (e : NapiError) :
    (threadEntryEx e).stack =
      "\tat napi_tools::callbacks::javascriptCallback::threadEntry::callback (napi_tools.hpp:1112)"
        :: (exception.from_napi_error e).stack := by
  simp only [threadEntryEx, exception.add_to_stack]
  congr 1

/-- C4 (amended): when the host callable (or the conversion of its return
value) throws a host-side `Napi::Error`, the dispatch callback converts
it with `exception::from_napi_error` — message preserved; when the host
error carries a multi-line `stack` string, its first `Error: [TEXT]`
line is dropped and the remaining frames are kept — prepends a frame
identifying the bridge's own call site, and delivers the result only to
the failure continuation, never to the success continuation and never
synchronously into the enqueuing thread.  An exception escaping the
failure continuation is caught and logged to `std::cerr` instead of
propagating.  (An exception escaping the success continuation is caught
as well, but it is rerouted to the failure continuation as a structured
exception rather than logged — see the counterexample.) -/
theorem host_error_failure_delivery :
    (∀ (e : NapiError) (f : Int → Except CxxExc Unit)
       (err : exception → Except CxxExc Unit),
        (threadEntryCallback (R := Int) (.error (.napiErr e)) f err).delivered_err =
          some (threadEntryEx e) ∧
        (threadEntryCallback (R := Int) (.error (.napiErr e)) f err).delivered_ok =
          none) ∧
    (∀ e : NapiError, (threadEntryEx e).message = e.message) ∧
    (∀ e : NapiError,
        (threadEntryEx e).stack =
          "\tat napi_tools::callbacks::javascriptCallback::threadEntry::callback (napi_tools.hpp:1112)"
            :: (exception.from_napi_error e).stack) ∧
    (∀ (m st : String), (split_string st '\n').length > 1 →
        (exception.from_napi_error ⟨m, some (NapiValue.vString st)⟩).stack =
          "\tat from_napi_error (napi_tools.hpp:494)"
            :: (split_string st '\n').tail) ∧
    (∀ (e : NapiError) (f : Int → Except CxxExc Unit)
       (err : exception → Except CxxExc Unit) (m : String),
        err (threadEntryEx e) = .error (.stdExc m) →
        (threadEntryCallback (R := Int) (.error (.napiErr e)) f err).logged =
          ["napi_tools.hpp:1115 Exception thrown: " ++ m]) := by
  refine ⟨?_, threadEntryEx_message, threadEntryEx_stack, ?_, ?_⟩
  · intro e f err
    have hrw : threadEntryCallback (R := Int) (.error (.napiErr e)) f err =
        dispatchCatch err none (.napiErr e) := rfl
    rw [hrw]
    cases herr : err (threadEntryEx e) with
    | ok u => simp [dispatchCatch, herr]
    | error exc => cases exc <;> simp [dispatchCatch, herr]
  · intro m st hlen
    simp only [exception.from_napi_error, exception.add_to_stack, if_pos hlen]
    congr 1
  · intro e f err m herr
    have hrw : threadEntryCallback (R := Int) (.error (.napiErr e)) f err =
        dispatchCatch err none (.napiErr e) := rfl
    rw [hrw]
    simp [dispatchCatch, herr]

/-- Witness for `host_error_failure_delivery`: a concrete host error with
a two-frame stack text is delivered to the failure continuation as the
converted structured exception, and a failure continuation that throws
gets its exception logged. -/
theorem host_error_failure_delivery_witness :
    (threadEntryCallback (R := Int)
        (.error (.napiErr ⟨"bad", none⟩))
        (fun _ => Except.ok ()) (fun _ => Except.ok ())).delivered_err =
      some (threadEntryEx ⟨"bad", none⟩) ∧
    (exception.from_napi_error
        ⟨"bad", some (NapiValue.vString "Error: bad\n\tat f (a.js:1)")⟩).stack =
      "\tat from_napi_error (napi_tools.hpp:494)"
        :: (split_string "Error: bad\n\tat f (a.js:1)" '\n').tail ∧
    (threadEntryCallback (R := Int)
        (.error (.napiErr ⟨"bad", none⟩))
        (fun _ => Except.ok ())
        (fun _ => Except.error (CxxExc.stdExc "cont boom"))).logged =
      ["napi_tools.hpp:1115 Exception thrown: " ++ "cont boom"] :=
  ⟨(host_error_failure_delivery.1 ⟨"bad", none⟩ _ _).1,
   host_error_failure_delivery.2.2.2.1 "bad" "Error: bad\n\tat f (a.js:1)"
      (by decide),
   host_error_failure_delivery.2.2.2.2 ⟨"bad", none⟩ _ _ "cont boom" rfl⟩

/-- C4's logging clause as stated is false: here the success continuation
throws a `std::exception` (`"boom"`); the dispatch callback catches it,
but instead of logging it to the diagnostic stream it wraps it as
`exception(e.what())` and delivers it to the failure continuation — the
log stays empty. -/
theorem success_continuation_exception_unlogged :
    threadEntryCallback (R := Int) (.ok 1)
        (fun _ => Except.error (CxxExc.stdExc "boom"))
        (fun _ => Except.ok ()) =
      { delivered_ok := some 1, delivered_err := some ⟨"boom", []⟩,
        logged := [] } := by
  rfl

/-! ### C6, C7, C8 -/

lemma checkArgsLoop_first_failure (name : String)
    (good : List (NapiValue × Nat)) (v : NapiValue) (t : Nat)
    (rest : List (NapiValue × Nat)) (i : Nat)
    (hgood : ∀ p ∈ good, check_arg p.1 p.2 = true)
    (hfail : check_arg v t = false) :
    checkArgsLoop name (good ++ (v, t) :: rest) i =
      .error ("Argument type mismatch: " ++ name ++ " requires type " ++
              napi_type_to_string t ++ " at position " ++
              toString (i + good.length + 1)) := by
  induction good generalizing i with
  | nil => simp [checkArgsLoop, hfail]
  | cons p good ih =>
      have hp : check_arg p.1 p.2 = true := hgood p (by simp)
      have hrest : ∀ q ∈ good, check_arg q.1 q.2 = true := by
        intro q hq
        exact hgood q (by simp [hq])
      have hidx : i + 1 + good.length + 1 = i + (good.length + 1) + 1 := by omega
      calc checkArgsLoop name ((p :: good) ++ (v, t) :: rest) i
          = checkArgsLoop name (good ++ (v, t) :: rest) (i + 1) := by
            simp [checkArgsLoop, hp]
        _ = .error ("Argument type mismatch: " ++ name ++ " requires type " ++
              napi_type_to_string t ++ " at position " ++
              toString (i + 1 + good.length + 1)) := ih (i + 1) hrest
        _ = .error ("Argument type mismatch: " ++ name ++ " requires type " ++
              napi_type_to_string t ++ " at position " ++
              toString (i + (good.length + 1) + 1)) := by rw [hidx]
        _ = _ := by simp

/-- C6 (amended): the argument-validation layer (`util::checkArgs`) fails
on the first argument whose runtime type does not satisfy the expected
`napi_type` flags with a `TypeError` whose message names the expected
type (via `napi_type_to_string`) and the 1-based position of the
offending argument; the per-value conversion layer
(`util::conversions::toCpp`) rejects a value of the wrong runtime type
with an error naming only the expected type — `"The given type is not a
number"` — without any argument position. -/
theorem type_mismatch_messages :
    (∀ (name : String) (info1 info2 : List NapiValue) (t1 t2 : List Nat)
       (v : NapiValue) (t : Nat),
        info1.length = t1.length →
        (∀ p ∈ info1.zip t1, check_arg p.1 p.2 = true) →
        check_arg v t = false →
        t2.length ≤ info2.length →
        checkArgs (info1 ++ v :: info2) name (t1 ++ t :: t2) =
          .error ("Argument type mismatch: " ++ name ++ " requires type " ++
                  napi_type_to_string t ++ " at position " ++
                  toString (t1.length + 1))) ∧
    (∀ val : NapiValue, val.IsNumber = false →
        toCppInt val = .error "The given type is not a number") := by
  constructor
  · intro name info1 info2 t1 t2 v t hlen hgood hfail hrest
    have hnotlt : ¬ (info1 ++ v :: info2).length < (t1 ++ t :: t2).length := by
      simp [List.length_append]
      omega
    have hzip : (info1 ++ v :: info2).zip (t1 ++ t :: t2) =
        info1.zip t1 ++ (v, t) :: info2.zip t2 := by
      rw [List.zip_append hlen]
      rfl
    have hzlen : (info1.zip t1).length = t1.length := by
      simp [List.length_zip, hlen]
    rw [checkArgs, if_neg hnotlt, hzip,
        checkArgsLoop_first_failure name (info1.zip t1) v t (info2.zip t2) 0 hgood hfail,
        hzlen]
    simp
  · intro val hval
    cases val <;> simp_all [toCppInt, NapiValue.IsNumber]

/-- Witness for `type_mismatch_messages`: a boolean where a number is
expected, at position 2, yields the full type-mismatch message; a string
fed to the integer converter yields the position-free message. -/
theorem type_mismatch_messages_witness :
    checkArgs [NapiValue.vString "x", NapiValue.vBoolean true] "func"
        [napi_type.string, napi_type.number] =
      .error "Argument type mismatch: func requires type number at position 2" ∧
    toCppInt (NapiValue.vString "y") =
      .error "The given type is not a number" := by
  constructor
  · have h := type_mismatch_messages.1 "func" [NapiValue.vString "x"] []
      [napi_type.string] [] (NapiValue.vBoolean true) napi_type.number
      rfl (by decide) (by decide) (by decide)
    exact h.trans (by decide)
  · exact type_mismatch_messages.2 (NapiValue.vString "y") rfl

/-- C6 as stated is false for the conversion layer: `toCpp`'s error for a
non-number is the fixed message `"The given type is not a number"` — it
names the expected type but no argument position at all (no occurrence
of `"position"`, and it is the same message wherever the value sat). -/
theorem toCpp_error_no_position :
    toCppInt (NapiValue.vString "abc") =
      .error "The given type is not a number" ∧
    hasSubstr "The given type is not a number" "position" = false ∧
    hasSubstr "The given type is not a number" "at position 1" = false := by
  refine ⟨rfl, ?_, ?_⟩ <;> decide

/-- C7: round trips of the five representative values.  The scalar legs
go through the source's conversions as written; the sequence legs use
`toCppStringVec`, which models `toCpp<std::vector<T>>::convert` with the
`Napi::Env` argument threaded through — the source's own body drops that
argument, so the sequence conversion cannot even be instantiated (see
the doc comment on `toCppStringVec`). -/
theorem roundtrip_representative_values :
    toCppInt (cppValToValueInt 42) = .ok 42 ∧
    toCppString (cppValToValueString "abc") = .ok "abc" ∧
    toCppBool (cppValToValueBool true) = .ok true ∧
    toCppStringVec (cppValToValueStringVec []) = .ok [] ∧
    toCppStringVec (cppValToValueStringVec ["a", "b", "c"]) =
      .ok ["a", "b", "c"] := by
  refine ⟨rfl, rfl, rfl, rfl, ?_⟩
  decide

/-- C8 (amended): `cppValToValue` uses the type's own `toNapiValue` when
the compile-time capability check finds one; otherwise, when
`napi_can_convert` holds, it uses the built-in `Napi::Value::From` path;
and when neither applies it silently returns `env.Undefined()` — no
error is produced. -/
theorem cppValToValue_dispatch (α : Type) (f : α → NapiValue)
    (fromVal : α → NapiValue) (v : α) :
    cppValToValue (some f) true fromVal v = f v ∧
    cppValToValue (some f) false fromVal v = f v ∧
    cppValToValue (α := α) none true fromVal v = fromVal v ∧
    cppValToValue (α := α) none false fromVal v = NapiValue.vUndefined :=
  ⟨rfl, rfl, rfl, rfl⟩

/-- C8 as stated is false: for a concrete type with neither a
`toNapiValue` capability nor a `napi_can_convert` instance, the
conversion does not fail — `cppValToValue` silently yields `undefined`
(its return type has no error channel at all). -/
theorem cppValToValue_undefined_counterexample :
    cppValToValue (α := Unit) none false (fun _ => NapiValue.vNull) () =
      NapiValue.vUndefined :=
  rfl

end napi_tools
